import Mathlib

/-!
# Verification of the Black Friday cache-aside backend

A shallow embedding of the backend of `blackfriday-cache-aside-poc`
(`src/backend/src/server.ts`, `src/backend/src/metrics.ts`,
`src/backend/src/schema.ts`) together with theorems about the
cache-aside read path, the metrics recorder, the load generator and
the reset control operation.

Conventions of the embedding:
* database rows (`products`, `product_variants`, `inventory_locations`,
  `product_reviews`, `price_history`) are records mirroring `schema.ts`;
  the whole backing store is a `Database` of row lists;
* Redis is a function from keys to optional `(value, expiry-time)`
  pairs; time is an explicit `Nat` parameter (seconds) threaded through
  the handlers, and a key set with `EX ttl` at time `now` is visible to
  `GET` exactly while `now' < now + ttl`;
* JavaScript numbers are idealised as `ℚ` (all values reached by the
  claims are integers); `Math.round` is `jsRound`;
* JSON values are a small AST (`Json`), `JSON.stringify` of the
  enriched product is `toJson`, and the field-by-field reading back of
  the parsed snapshot is `fromJson`;
* fallible collaborator calls (Redis `get`/`set`, the database driver)
  are modelled by a `Fault` parameter selecting which call, if any,
  throws; `Fault.ok` is the fault-free run;
* each handler also returns the list of external-effect events it
  performs (`Effect`), used to reason about the absence of
  simulated-latency sleeps.
-/

namespace BlackFriday

/-! ## Data model (schema.ts) -/

/-- A row of the `products` table. -/
structure Product where
  id : Nat
  sku : String
  name : String
  price : Int
  discount : Int
  inventory : Int
  category : Option String
  brand : Option String
  description : Option String
deriving DecidableEq

/-- A row of the `product_variants` table. -/
structure Variant where
  product_id : Nat
  variant_name : String
  sku : String
  price_modifier : Int
  inventory : Int
deriving DecidableEq

/-- A row of the `inventory_locations` table. -/
structure InventoryLocation where
  product_id : Nat
  warehouse : String
  quantity : Int
  reserved : Int
deriving DecidableEq

/-- A row of the `product_reviews` table. -/
structure Review where
  product_id : Nat
  rating : Int
deriving DecidableEq

/-- A row of the `price_history` table. -/
structure PriceHistoryRow where
  product_id : Nat
  price : Int
  discount : Int
  changed_at : Nat
deriving DecidableEq

/-- The backing store: all tables of the Postgres database. -/
structure Database where
  products : List Product
  variants : List Variant
  inventory : List InventoryLocation
  reviews : List Review
  history : List PriceHistoryRow
deriving DecidableEq

/-! ## JSON values -/

/-- A JSON value; numbers are idealised as rationals. -/
inductive Json where
  | null : Json
  | bool : Bool → Json
  | num : ℚ → Json
  | str : String → Json
  | arr : List Json → Json
  | obj : List (String × Json) → Json

/-- Field lookup in a JSON object field list. -/
def getField (fields : List (String × Json)) (k : String) : Option Json :=
  (fields.find? (fun f => f.1 = k)).map (fun f => f.2)

/-- JS object-spread override `{...data, k: v}`: replaces the field in
place when present, appends it otherwise. Non-objects are unchanged. -/
def objSet : Json → String → Json → Json
  | Json.obj fields, k, v =>
      if fields.any (fun f => f.1 = k) then
        Json.obj (fields.map (fun f => if f.1 = k then (k, v) else f))
      else
        Json.obj (fields ++ [(k, v)])
  | j, _, _ => j

/-! ## Product enrichment (server.ts, getEnrichedProduct) -/

/-- JS `Math.round`: round half toward positive infinity. -/
def jsRound (q : ℚ) : Int :=
  (q + 1/2).floor

/-- JS `s || null` on a nullable string: empty string collapses to null. -/
def orNull : Option String → Option String
  | some s => if s = "" then none else some s
  | none => none

/-- Insert a price-history row into a list sorted by `changed_at`. -/
def insertRow (h : PriceHistoryRow) : List PriceHistoryRow → List PriceHistoryRow
  | [] => [h]
  | x :: xs => if h.changed_at < x.changed_at then h :: x :: xs else x :: insertRow h xs

/-- Sort price-history rows by `changed_at` ascending (the SQL
`ORDER BY changed_at`). -/
def sortRows : List PriceHistoryRow → List PriceHistoryRow
  | [] => []
  | x :: xs => insertRow x (sortRows xs)

/-- An element of the enriched product's `variants` array. -/
structure VariantOut where
  name : String
  sku : String
  price : Int
  inventory : Int
deriving DecidableEq

/-- An element of the enriched product's `warehouseStock` array. -/
structure StockOut where
  warehouse : String
  available : Int
deriving DecidableEq

/-- An element of the enriched product's `priceHistory` array. -/
structure HistOut where
  price : Int
  discount : Int
deriving DecidableEq

/-- The enriched product built by `getEnrichedProduct` (the `cached`
field is added later by the handlers, never stored). -/
structure EnrichedProduct where
  id : Nat
  sku : String
  name : String
  price : Int
  discount : Int
  inventory : Int
  category : Option String
  brand : Option String
  description : Option String
  variants : List VariantOut
  totalInventory : Int
  warehouseStock : List StockOut
  avgRating : Option ℚ
  reviewCount : Nat
  priceHistory : List HistOut
  finalPrice : Int
  savings : Int
deriving DecidableEq

/-- The main product query: first row of
`select().from(products).where(eq(products.sku, sku))`. -/
def findProduct (db : Database) (sku : String) : Option Product :=
  db.products.find? (fun p => p.sku = sku)

/-- The enrichment of a found product row: the four secondary queries
and the derived fields, exactly as assembled in `getEnrichedProduct`. -/
def enrich (db : Database) (pr : Product) : EnrichedProduct :=
  let variantsData := db.variants.filter (fun v => v.product_id = pr.id)
  let inventoryData := db.inventory.filter (fun l => l.product_id = pr.id)
  let ratings := (db.reviews.filter (fun r => r.product_id = pr.id)).map (fun r => r.rating)
  let historyData := (sortRows (db.history.filter (fun h => h.product_id = pr.id))).take 5
  let totalInventory :=
    inventoryData.foldl (fun sum loc => sum + (loc.quantity - loc.reserved)) 0
  let finalPrice := jsRound ((pr.price : ℚ) * (1 - (pr.discount : ℚ) / 100))
  let savings := pr.price - finalPrice
  { id := pr.id
    sku := pr.sku
    name := pr.name
    price := pr.price
    discount := pr.discount
    inventory := pr.inventory
    category := orNull pr.category
    brand := orNull pr.brand
    description := orNull pr.description
    variants := variantsData.map (fun v =>
      { name := v.variant_name
        sku := v.sku
        price := pr.price + v.price_modifier
        inventory := v.inventory })
    totalInventory := totalInventory
    warehouseStock := inventoryData.map (fun l =>
      { warehouse := l.warehouse, available := l.quantity - l.reserved })
    avgRating :=
      if ratings.isEmpty then none
      else some ((ratings.map (fun r => (r : ℚ))).sum / (ratings.length : ℚ))
    reviewCount := ratings.length
    priceHistory := historyData.map (fun h => { price := h.price, discount := h.discount })
    finalPrice := finalPrice
    savings := savings }

/-- `getEnrichedProduct`: the product lookup plus enrichment, also
returning how many times `dbReads.inc` fires (once for the main query,
then once for each of the four enrichment queries). -/
def getEnrichedProduct (db : Database) (sku : String) : Option EnrichedProduct × Nat :=
  match findProduct db sku with
  | none => (none, 1)
  | some pr => (some (enrich db pr), 5)

/-! ## JSON serialization of the enriched product (JSON.stringify) -/

/-- Encode a nullable string field. -/
def encOptStr : Option String → Json
  | none => Json.null
  | some s => Json.str s

/-- Encode the nullable `avgRating` field. -/
def encOptNum : Option ℚ → Json
  | none => Json.null
  | some q => Json.num q

/-- Encode a `variants` array element. -/
def encVariant (v : VariantOut) : Json :=
  Json.obj [("name", Json.str v.name), ("sku", Json.str v.sku),
            ("price", Json.num (v.price : ℚ)), ("inventory", Json.num (v.inventory : ℚ))]

/-- Encode a `warehouseStock` array element. -/
def encStock (s : StockOut) : Json :=
  Json.obj [("warehouse", Json.str s.warehouse), ("available", Json.num (s.available : ℚ))]

/-- Encode a `priceHistory` array element. -/
def encHist (h : HistOut) : Json :=
  Json.obj [("price", Json.num (h.price : ℚ)), ("discount", Json.num (h.discount : ℚ))]

/-- The field list of the serialized snapshot, in the order the handler
constructs the enriched product (the optional `cached` field is absent
at stringify time). -/
def toJsonFields (p : EnrichedProduct) : List (String × Json) :=
  [
    ("id", Json.num (p.id : ℚ)),
    ("sku", Json.str p.sku),
    ("name", Json.str p.name),
    ("price", Json.num (p.price : ℚ)),
    ("discount", Json.num (p.discount : ℚ)),
    ("inventory", Json.num (p.inventory : ℚ)),
    ("category", encOptStr p.category),
    ("brand", encOptStr p.brand),
    ("description", encOptStr p.description),
    ("variants", Json.arr (p.variants.map encVariant)),
    ("totalInventory", Json.num (p.totalInventory : ℚ)),
    ("warehouseStock", Json.arr (p.warehouseStock.map encStock)),
    ("avgRating", encOptNum p.avgRating),
    ("reviewCount", Json.num (p.reviewCount : ℚ)),
    ("priceHistory", Json.arr (p.priceHistory.map encHist)),
    ("finalPrice", Json.num (p.finalPrice : ℚ)),
    ("savings", Json.num (p.savings : ℚ))]

/-- `JSON.stringify(enrichedProduct)`: the serialized snapshot stored in
the cache. -/
def toJson (p : EnrichedProduct) : Json :=
  Json.obj (toJsonFields p)

/-! ## Reading the parsed snapshot back, field by field -/

/-- Read an integer-valued JSON number. -/
def decInt : Json → Option Int
  | Json.num q => if q.den = 1 then some q.num else none
  | _ => none

/-- Read a natural-valued JSON number. -/
def decNat : Json → Option Nat
  | Json.num q => if q.den = 1 ∧ 0 ≤ q.num then some q.num.toNat else none
  | _ => none

/-- Read a JSON string. -/
def decStr : Json → Option String
  | Json.str s => some s
  | _ => none

/-- Read a nullable string. -/
def decOptStr : Json → Option (Option String)
  | Json.null => some none
  | Json.str s => some (some s)
  | _ => none

/-- Read a nullable number. -/
def decOptNum : Json → Option (Option ℚ)
  | Json.null => some none
  | Json.num q => some (some q)
  | _ => none

/-- Read every element of a JSON list with the given element reader. -/
def decListWith {α : Type} (dec : Json → Option α) : List Json → Option (List α)
  | [] => some []
  | j :: js => do
      let a ← dec j
      let rest ← decListWith dec js
      pure (a :: rest)

/-- Read a JSON array with the given element reader. -/
def decArr {α : Type} (dec : Json → Option α) : Json → Option (List α)
  | Json.arr js => decListWith dec js
  | _ => none

/-- Read a `variants` array element back. -/
def decVariant : Json → Option VariantOut
  | Json.obj fs => do
      let name ← getField fs "name" >>= decStr
      let sku ← getField fs "sku" >>= decStr
      let price ← getField fs "price" >>= decInt
      let inventory ← getField fs "inventory" >>= decInt
      pure { name := name, sku := sku, price := price, inventory := inventory }
  | _ => none

/-- Read a `warehouseStock` array element back. -/
def decStock : Json → Option StockOut
  | Json.obj fs => do
      let warehouse ← getField fs "warehouse" >>= decStr
      let available ← getField fs "available" >>= decInt
      pure { warehouse := warehouse, available := available }
  | _ => none

/-- Read a `priceHistory` array element back. -/
def decHist : Json → Option HistOut
  | Json.obj fs => do
      let price ← getField fs "price" >>= decInt
      let discount ← getField fs "discount" >>= decInt
      pure { price := price, discount := discount }
  | _ => none

/-- The scalar attribute fields of a parsed snapshot. -/
structure ScalarPart where
  id : Nat
  sku : String
  name : String
  price : Int
  discount : Int
  inventory : Int
  category : Option String
  brand : Option String
  description : Option String
deriving DecidableEq

/-- The enrichment fields of a parsed snapshot. -/
structure EnrichedPart where
  variants : List VariantOut
  totalInventory : Int
  warehouseStock : List StockOut
  avgRating : Option ℚ
  reviewCount : Nat
  priceHistory : List HistOut
  finalPrice : Int
  savings : Int
deriving DecidableEq

/-- Read the scalar attribute fields back. -/
def decScalarPart (fs : List (String × Json)) : Option ScalarPart := do
  let id ← getField fs "id" >>= decNat
  let sku ← getField fs "sku" >>= decStr
  let name ← getField fs "name" >>= decStr
  let price ← getField fs "price" >>= decInt
  let discount ← getField fs "discount" >>= decInt
  let inventory ← getField fs "inventory" >>= decInt
  let category ← getField fs "category" >>= decOptStr
  let brand ← getField fs "brand" >>= decOptStr
  let description ← getField fs "description" >>= decOptStr
  pure { id := id, sku := sku, name := name, price := price, discount := discount,
         inventory := inventory, category := category, brand := brand,
         description := description }

/-- Read the enrichment fields back. -/
def decEnrichedPart (fs : List (String × Json)) : Option EnrichedPart := do
  let variants ← getField fs "variants" >>= decArr decVariant
  let totalInventory ← getField fs "totalInventory" >>= decInt
  let warehouseStock ← getField fs "warehouseStock" >>= decArr decStock
  let avgRating ← getField fs "avgRating" >>= decOptNum
  let reviewCount ← getField fs "reviewCount" >>= decNat
  let priceHistory ← getField fs "priceHistory" >>= decArr decHist
  let finalPrice ← getField fs "finalPrice" >>= decInt
  let savings ← getField fs "savings" >>= decInt
  pure { variants := variants, totalInventory := totalInventory,
         warehouseStock := warehouseStock, avgRating := avgRating,
         reviewCount := reviewCount, priceHistory := priceHistory,
         finalPrice := finalPrice, savings := savings }

/-- Read a parsed snapshot back into an enriched product, field by
field: the formal counterpart of "every field of the stored snapshot is
preserved by `JSON.parse`". -/
def fromJson : Json → Option EnrichedProduct
  | Json.obj fs => do
      let s ← decScalarPart fs
      let e ← decEnrichedPart fs
      pure { id := s.id, sku := s.sku, name := s.name, price := s.price,
             discount := s.discount, inventory := s.inventory, category := s.category,
             brand := s.brand, description := s.description, variants := e.variants,
             totalInventory := e.totalInventory, warehouseStock := e.warehouseStock,
             avgRating := e.avgRating, reviewCount := e.reviewCount,
             priceHistory := e.priceHistory, finalPrice := e.finalPrice,
             savings := e.savings }
  | _ => none

/-! ## Round-trip lemmas for the field readers -/

theorem decInt_num (i : Int) : decInt (Json.num (i : ℚ)) = some i := by
  simp [decInt]

theorem decNat_num (n : Nat) : decNat (Json.num (n : ℚ)) = some n := by
  simp [decNat]

theorem decOptStr_enc (s : Option String) : decOptStr (encOptStr s) = some s := by
  cases s <;> simp [decOptStr, encOptStr]

theorem decOptNum_enc (q : Option ℚ) : decOptNum (encOptNum q) = some q := by
  cases q <;> simp [decOptNum, encOptNum]

theorem decVariant_enc (v : VariantOut) : decVariant (encVariant v) = some v := by
  simp [decVariant, encVariant, getField, decStr, decInt_num]

theorem decStock_enc (s : StockOut) : decStock (encStock s) = some s := by
  simp [decStock, encStock, getField, decStr, decInt_num]

theorem decHist_enc (h : HistOut) : decHist (encHist h) = some h := by
  simp [decHist, encHist, getField, decInt_num]

theorem decListWith_map {α : Type} (dec : Json → Option α) (enc : α → Json)
    (h : ∀ a, dec (enc a) = some a) (l : List α) :
    decListWith dec (l.map enc) = some l := by
  induction l with
  | nil => simp [decListWith]
  | cons a as ih => simp [decListWith, h, ih]

theorem decArr_map {α : Type} (dec : Json → Option α) (enc : α → Json)
    (h : ∀ a, dec (enc a) = some a) (l : List α) :
    decArr dec (Json.arr (l.map enc)) = some l := by
  simp [decArr, decListWith_map dec enc h]

theorem decScalarPart_toJsonFields (p : EnrichedProduct) :
    decScalarPart (toJsonFields p) =
      some { id := p.id, sku := p.sku, name := p.name, price := p.price,
             discount := p.discount, inventory := p.inventory,
             category := p.category, brand := p.brand, description := p.description } := by
  simp [decScalarPart, toJsonFields, getField, decStr, decInt_num, decNat_num,
    decOptStr_enc]

theorem decEnrichedPart_toJsonFields (p : EnrichedProduct) :
    decEnrichedPart (toJsonFields p) =
      some { variants := p.variants, totalInventory := p.totalInventory,
             warehouseStock := p.warehouseStock, avgRating := p.avgRating,
             reviewCount := p.reviewCount, priceHistory := p.priceHistory,
             finalPrice := p.finalPrice, savings := p.savings } := by
  simp [decEnrichedPart, toJsonFields, getField, decInt_num, decNat_num,
    decOptNum_enc,
    decArr_map decVariant encVariant decVariant_enc,
    decArr_map decStock encStock decStock_enc,
    decArr_map decHist encHist decHist_enc]

/-- Serialize-then-deserialize preserves every field of the enriched
product. -/
theorem fromJson_toJson (p : EnrichedProduct) : fromJson (toJson p) = some p := by
  simp [fromJson, toJson, decScalarPart_toJsonFields, decEnrichedPart_toJsonFields]

/-! ## Metrics recorder (metrics.ts) -/

/-- The metric families registered in `metrics.ts`: three labelled
cache-effectiveness counters, the request counter and the duration
histogram (kept as the list of recorded observations). -/
structure MetricsState where
  cacheHits : String → Nat
  cacheMisses : String → Nat
  dbReads : String → Nat
  httpRequests : String → String → Nat → Nat
  durationObs : List (String × String × Nat)

/-- `cacheHits.inc({route})`. -/
def MetricsState.incHit (m : MetricsState) (route : String) : MetricsState :=
  { m with cacheHits := fun r => if r = route then m.cacheHits r + 1 else m.cacheHits r }

/-- `cacheMisses.inc({route})`. -/
def MetricsState.incMiss (m : MetricsState) (route : String) : MetricsState :=
  { m with cacheMisses := fun r => if r = route then m.cacheMisses r + 1 else m.cacheMisses r }

/-- `dbReads.inc({route}, 1)` applied `k` times. -/
def MetricsState.incDbReads (m : MetricsState) (route : String) (k : Nat) : MetricsState :=
  { m with dbReads := fun r => if r = route then m.dbReads r + k else m.dbReads r }

/-- The `end(status)` closure of `timeRoute`: records one duration
observation and increments the request counter. -/
def MetricsState.endRoute (m : MetricsState) (method route : String) (status : Nat) :
    MetricsState :=
  { m with
    durationObs := m.durationObs ++ [(method, route, status)]
    httpRequests := fun me r s =>
      if me = method ∧ r = route ∧ s = status then m.httpRequests me r s + 1
      else m.httpRequests me r s }

/-- The metric resets performed by the `/reset` handler:
`cacheHits.reset(); cacheMisses.reset(); dbReads.reset()`. -/
def MetricsState.resetCounters (m : MetricsState) : MetricsState :=
  { m with cacheHits := fun _ => 0, cacheMisses := fun _ => 0, dbReads := fun _ => 0 }

/-! ## Server state and the cache-aside handlers (server.ts) -/

/-- The Redis cache: key to serialized value and absolute expiry time. -/
def Cache : Type := String → Option (Json × Nat)

/-- Process state shared by all handlers. -/
structure ServerState where
  cache : Cache
  metrics : MetricsState

/-- `CACHE_TTL = 30`. -/
def CACHE_TTL : Nat := 30

/-- The cache key for a SKU: `product:${sku}`. -/
def productKey (sku : String) : String := "product:" ++ sku

/-- Which collaborator call, if any, throws during a `/cache/:sku`
request. -/
inductive Fault where
  | ok
  | cacheGetFail
  | dbFail
  | cacheSetFail
deriving DecidableEq

/-- External-effect events a handler performs. -/
inductive Effect where
  | cacheGet (key : String)
  | cacheSet (key : String) (ttl : Nat)
  | dbQuery (table : String)
  | sleep (ms : Nat)
deriving DecidableEq

/-- The five queries run by a full enrichment. -/
def enrichQueries : List Effect :=
  [Effect.dbQuery "products", Effect.dbQuery "product_variants",
   Effect.dbQuery "inventory_locations", Effect.dbQuery "product_reviews",
   Effect.dbQuery "price_history"]

/-- `redis.get` under Redis TTL expiry: a key set at time `t` with
`EX ttl` is visible while `now < t + ttl`, absent afterwards. -/
def cacheLookup (c : Cache) (now : Nat) (key : String) : Option Json :=
  match c key with
  | some (v, exp) => if now < exp then some v else none
  | none => none

/-- An HTTP response: status code and JSON body. -/
structure ReadResult where
  status : Nat
  body : Json

/-- The 404 body of the product handlers. -/
def notFoundBody : Json := Json.obj [("error", Json.str "Product not found")]

/-- The 500 body produced by the catch-all handler. -/
def errBody (msg : String) : Json := Json.obj [("error", Json.str msg)]

/-- The `GET /cache/:sku` handler: the cache-aside read path, including
the `timeRoute` observation, the hit/miss/db-read counters, the
try/catch error mapping selected by `fault`, and the trace of external
effects performed. -/
def cacheReadF (fault : Fault) (db : Database) (now : Nat) (sku : String)
    (st : ServerState) : ReadResult × ServerState × List Effect :=
  let route := "/cache/:sku"
  let key := productKey sku
  if fault = Fault.cacheGetFail then
    (⟨500, errBody "cache get failed"⟩,
     { st with metrics := st.metrics.endRoute "GET" route 500 },
     [Effect.cacheGet key])
  else
    match cacheLookup st.cache now key with
    | some data =>
        (⟨200, objSet data "cached" (Json.bool true)⟩,
         { st with metrics := (st.metrics.incHit route).endRoute "GET" route 200 },
         [Effect.cacheGet key])
    | none =>
        let m1 := st.metrics.incMiss route
        if fault = Fault.dbFail then
          (⟨500, errBody "db failed"⟩,
           { st with metrics := m1.endRoute "GET" route 500 },
           [Effect.cacheGet key, Effect.dbQuery "products"])
        else
          match getEnrichedProduct db sku with
          | (none, n) =>
              (⟨404, notFoundBody⟩,
               { st with metrics := (m1.incDbReads route n).endRoute "GET" route 404 },
               [Effect.cacheGet key, Effect.dbQuery "products"])
          | (some p, n) =>
              let m2 := m1.incDbReads route n
              if fault = Fault.cacheSetFail then
                (⟨500, errBody "cache set failed"⟩,
                 { st with metrics := m2.endRoute "GET" route 500 },
                 Effect.cacheGet key :: enrichQueries ++ [Effect.cacheSet key CACHE_TTL])
              else
                (⟨200, objSet (toJson p) "cached" (Json.bool false)⟩,
                 { cache := fun k =>
                     if k = key then some (toJson p, now + CACHE_TTL) else st.cache k
                   metrics := m2.endRoute "GET" route 200 },
                 Effect.cacheGet key :: enrichQueries ++ [Effect.cacheSet key CACHE_TTL])

/-- The fault-free cache-aside read. -/
def cacheRead (db : Database) (now : Nat) (sku : String) (st : ServerState) :
    ReadResult × ServerState × List Effect :=
  cacheReadF Fault.ok db now sku st

/-- The `GET /nocache/:sku` handler: the uncached baseline. -/
def nocacheRead (db : Database) (sku : String) (st : ServerState) :
    ReadResult × ServerState :=
  let route := "/nocache/:sku"
  match getEnrichedProduct db sku with
  | (none, n) =>
      (⟨404, notFoundBody⟩,
       { st with metrics := (st.metrics.incDbReads route n).endRoute "GET" route 404 })
  | (some p, n) =>
      (⟨200, objSet (toJson p) "cached" (Json.bool false)⟩,
       { st with metrics := (st.metrics.incDbReads route n).endRoute "GET" route 200 })

/-- Repeating the fault-free cache-aside read `n` times. -/
def iterRead (db : Database) (now : Nat) (sku : String) : Nat → ServerState → ServerState
  | 0, st => st
  | n + 1, st => iterRead db now sku n (cacheReadF Fault.ok db now sku st).2.1

/-! ## Load generator: `POST /simulate-load` -/

/-- The keys the load generator requests: `SKU-1 .. SKU-count`
(`fetch('http://localhost:3000/cache/SKU-${i}')` for `i = 1..count`). -/
def simulateLoadKeys (count : Nat) : List String :=
  (List.range count).map (fun i => "SKU-" ++ toString (i + 1))

/-- Run the generated requests in order against the server's own
`/cache/:sku` handler; a request whose fetch fails (per `faults` on its
index) is swallowed by `.catch(() => null)`, yielding `none` and
leaving the others untouched. -/
def runRequests (db : Database) (now : Nat) (faults : Nat → Bool) :
    List (Nat × String) → ServerState → List (Option ReadResult) × ServerState
  | [], st => ([], st)
  | (i, sku) :: rest, st =>
      if faults i then
        let p := runRequests db now faults rest st
        (none :: p.1, p.2)
      else
        let r := cacheReadF Fault.ok db now sku st
        let p := runRequests db now faults rest r.2.1
        (some r.1 :: p.1, p.2)

/-- The success body of `/simulate-load`. -/
def simulateLoadBody (count : Nat) : Json :=
  Json.obj [("success", Json.bool true),
            ("message", Json.str ("Generated " ++ toString count ++ " requests to warm cache"))]

/-- The `POST /simulate-load` handler: fans out `count` requests for
keys `SKU-1..SKU-count`, awaits them all (failures swallowed per
request) and reports success. -/
def simulateLoad (db : Database) (now : Nat) (faults : Nat → Bool) (count : Nat)
    (st : ServerState) : ReadResult × List (Option ReadResult) × ServerState :=
  let reqs := (List.range count).map (fun i => (i + 1, "SKU-" ++ toString (i + 1)))
  let p := runRequests db now faults reqs st
  (⟨200, simulateLoadBody count⟩, p.1,
   { p.2 with metrics := p.2.metrics.endRoute "POST" "/simulate-load" 200 })

/-! ## Control plane: `POST /reset` -/

/-- The success body of `/reset` (abridged to its `success` field). -/
def resetBody : Json := Json.obj [("success", Json.bool true)]

/-- The `POST /reset` handler: flush the cache, then reset the three
cache-effectiveness counters; if the flush throws, the catch block
skips the resets and surfaces the error. -/
def resetHandler (flushResult : Except String Unit) (st : ServerState) :
    ReadResult × ServerState :=
  match flushResult with
  | Except.error msg =>
      (⟨500, errBody msg⟩,
       { st with metrics := st.metrics.endRoute "POST" "/reset" 500 })
  | Except.ok _ =>
      (⟨200, resetBody⟩,
       { cache := fun _ => none
         metrics := st.metrics.resetCounters.endRoute "POST" "/reset" 200 })

/-! ## Concrete fixtures used by the witnesses -/

/-- Metrics at process start. -/
def emptyMetrics : MetricsState :=
  { cacheHits := fun _ => 0, cacheMisses := fun _ => 0, dbReads := fun _ => 0,
    httpRequests := fun _ _ _ => 0, durationObs := [] }

/-- Server state with a cold cache and fresh metrics. -/
def emptyState : ServerState :=
  { cache := fun _ => none, metrics := emptyMetrics }

/-- The scenario product: `{sku: "SKU-1", price: 1005, discount: 10}`. -/
def wpr : Product :=
  { id := 1, sku := "SKU-1", name := "Gaming Laptop", price := 1005, discount := 10,
    inventory := 100, category := some "electronics", brand := some "Acme",
    description := none }

/-- A second product, so the warm-up fixtures have two distinct keys. -/
def wpr2 : Product :=
  { id := 2, sku := "SKU-2", name := "Mechanical Keyboard", price := 200, discount := 0,
    inventory := 50, category := some "accessories", brand := none, description := none }

/-- A concrete backing store: two products with variants, stock,
reviews and price history for the first one. -/
def wdb : Database :=
  { products := [wpr, wpr2]
    variants := [{ product_id := 1, variant_name := "Black", sku := "SKU-1-B",
                   price_modifier := 50, inventory := 10 }]
    inventory := [{ product_id := 1, warehouse := "north", quantity := 10, reserved := 3 },
                  { product_id := 1, warehouse := "south", quantity := 5, reserved := 1 }]
    reviews := [{ product_id := 1, rating := 4 }, { product_id := 1, rating := 5 }]
    history := [{ product_id := 1, price := 1200, discount := 0, changed_at := 1 }] }

/-! ## Step lemmas for the cache-aside read -/

/-- A fault-free read that misses on a cold key and finds the product:
populates the cache under the TTL, counts one miss and five db reads,
and answers the enriched product with `cached: false`. -/
theorem cacheRead_miss_found (db : Database) (now : Nat) (sku : String)
    (st : ServerState) (pr : Product)
    (hfind : findProduct db sku = some pr)
    (hcold : st.cache (productKey sku) = none) :
    cacheReadF Fault.ok db now sku st =
      (⟨200, objSet (toJson (enrich db pr)) "cached" (Json.bool false)⟩,
       { cache := fun k =>
           if k = productKey sku then some (toJson (enrich db pr), now + CACHE_TTL)
           else st.cache k
         metrics := MetricsState.endRoute ((st.metrics.incMiss "/cache/:sku").incDbReads "/cache/:sku" 5) "GET" "/cache/:sku" 200 },
       Effect.cacheGet (productKey sku) :: enrichQueries
         ++ [Effect.cacheSet (productKey sku) CACHE_TTL]) := by
  simp [cacheReadF, cacheLookup, hcold, getEnrichedProduct, hfind]

/-- A fault-free read that hits a live cache entry: answers the stored
snapshot with `cached: true`, counts one hit, touches neither the cache
nor the db-read counter. -/
theorem cacheRead_hit (db : Database) (now : Nat) (sku : String)
    (st : ServerState) (data : Json) (exp : Nat)
    (hentry : st.cache (productKey sku) = some (data, exp))
    (hlive : now < exp) :
    cacheReadF Fault.ok db now sku st =
      (⟨200, objSet data "cached" (Json.bool true)⟩,
       { st with metrics := MetricsState.endRoute (st.metrics.incHit "/cache/:sku") "GET" "/cache/:sku" 200 },
       [Effect.cacheGet (productKey sku)]) := by
  simp [cacheReadF, cacheLookup, hentry, hlive]

/-- A fault-free read of a key that is cold in the cache and absent
from the backing store: 404, cache untouched, one miss and one db read
counted. -/
theorem cacheRead_miss_absent (db : Database) (now : Nat) (sku : String)
    (st : ServerState)
    (hfind : findProduct db sku = none)
    (hcold : st.cache (productKey sku) = none) :
    cacheReadF Fault.ok db now sku st =
      (⟨404, notFoundBody⟩,
       { st with metrics := MetricsState.endRoute ((st.metrics.incMiss "/cache/:sku").incDbReads "/cache/:sku" 1) "GET" "/cache/:sku" 404 },
       [Effect.cacheGet (productKey sku), Effect.dbQuery "products"]) := by
  simp [cacheReadF, cacheLookup, hcold, getEnrichedProduct, hfind]

/-- Iterating the fault-free read over a key that is absent from the
backing store leaves the cache exactly as it was and adds one
backing-read increment per repetition. -/
theorem iterRead_absent (db : Database) (now : Nat) (sku : String)
    (hfind : findProduct db sku = none) :
    ∀ (n : Nat) (st : ServerState), st.cache (productKey sku) = none →
      (iterRead db now sku n st).cache = st.cache
      ∧ (iterRead db now sku n st).metrics.dbReads "/cache/:sku"
        = st.metrics.dbReads "/cache/:sku" + n := by
  intro n
  induction n with
  | zero => intro st _; exact ⟨rfl, rfl⟩
  | succ k ih =>
      intro st h
      have hstep := cacheRead_miss_absent db now sku st hfind h
      have h2 : (cacheReadF Fault.ok db now sku st).2.1
          = { st with metrics := MetricsState.endRoute ((st.metrics.incMiss "/cache/:sku").incDbReads "/cache/:sku" 1) "GET" "/cache/:sku" 404 } := by
        rw [hstep]
      simp only [iterRead, h2]
      obtain ⟨hc, hd⟩ := ih { st with metrics := MetricsState.endRoute ((st.metrics.incMiss "/cache/:sku").incDbReads "/cache/:sku" 1) "GET" "/cache/:sku" 404 } h
      refine ⟨hc, ?_⟩
      rw [hd]
      simp [MetricsState.incMiss, MetricsState.incDbReads, MetricsState.endRoute]
      omega

/-- C3: a read of a key absent from the backing store answers 404,
writes nothing into the cache, and each of `n` repetitions performs the
backing-store lookup again — the backing-read counter grows by exactly
`n`, with no reduction on repetition. -/
theorem read_absent_no_negative_caching (db : Database) (now : Nat) (sku : String)
    (st : ServerState)
    (hfind : findProduct db sku = none)
    (hcold : st.cache (productKey sku) = none) :
    (cacheReadF Fault.ok db now sku st).1.status = 404
    ∧ (cacheReadF Fault.ok db now sku st).2.1.cache = st.cache
    ∧ ∀ n : Nat,
        (iterRead db now sku n st).cache = st.cache
        ∧ (iterRead db now sku n st).metrics.dbReads "/cache/:sku"
          = st.metrics.dbReads "/cache/:sku" + n := by
  have hstep := cacheRead_miss_absent db now sku st hfind hcold
  refine ⟨by rw [hstep], by rw [hstep], fun n => iterRead_absent db now sku hfind n st hcold⟩

/-- Witness for C3 at a concrete store and key. -/
theorem read_absent_no_negative_caching_witness :
    findProduct wdb "SKU-404" = none
    ∧ emptyState.cache (productKey "SKU-404") = none
    ∧ ((cacheReadF Fault.ok wdb 0 "SKU-404" emptyState).1.status = 404
       ∧ (cacheReadF Fault.ok wdb 0 "SKU-404" emptyState).2.1.cache = emptyState.cache
       ∧ ∀ n : Nat,
           (iterRead wdb 0 "SKU-404" n emptyState).cache = emptyState.cache
           ∧ (iterRead wdb 0 "SKU-404" n emptyState).metrics.dbReads "/cache/:sku"
             = emptyState.metrics.dbReads "/cache/:sku" + n) :=
  ⟨by decide, rfl,
   read_absent_no_negative_caching wdb 0 "SKU-404" emptyState (by decide) rfl⟩

/-- Every run of the `/cache/:sku` handler records exactly one duration
observation, under the status it answers with. -/
theorem read_obs_once (fault : Fault) (db : Database) (now : Nat) (sku : String)
    (st : ServerState) :
    (cacheReadF fault db now sku st).2.1.metrics.durationObs
      = st.metrics.durationObs
        ++ [("GET", "/cache/:sku", (cacheReadF fault db now sku st).1.status)] := by
  cases fault with
  | cacheGetFail => simp [cacheReadF, MetricsState.endRoute]
  | ok =>
      cases hl : cacheLookup st.cache now (productKey sku) with
      | some data => simp [cacheReadF, hl, MetricsState.incHit, MetricsState.endRoute]
      | none =>
          rcases hg : getEnrichedProduct db sku with ⟨opt, n⟩
          cases opt <;>
            simp [cacheReadF, hl, hg, MetricsState.incMiss, MetricsState.incDbReads,
              MetricsState.endRoute]
  | dbFail =>
      cases hl : cacheLookup st.cache now (productKey sku) with
      | some data => simp [cacheReadF, hl, MetricsState.incHit, MetricsState.endRoute]
      | none => simp [cacheReadF, hl, MetricsState.incMiss, MetricsState.endRoute]
  | cacheSetFail =>
      cases hl : cacheLookup st.cache now (productKey sku) with
      | some data => simp [cacheReadF, hl, MetricsState.incHit, MetricsState.endRoute]
      | none =>
          rcases hg : getEnrichedProduct db sku with ⟨opt, n⟩
          cases opt <;>
            simp [cacheReadF, hl, hg, MetricsState.incMiss, MetricsState.incDbReads,
              MetricsState.endRoute]

/-- The hit-or-miss increment count of one handler run: one unless the
cache lookup itself throws, in which case none. -/
theorem read_hitmiss_count (fault : Fault) (db : Database) (now : Nat) (sku : String)
    (st : ServerState) :
    (cacheReadF fault db now sku st).2.1.metrics.cacheHits "/cache/:sku"
      + (cacheReadF fault db now sku st).2.1.metrics.cacheMisses "/cache/:sku"
    = st.metrics.cacheHits "/cache/:sku" + st.metrics.cacheMisses "/cache/:sku"
      + (if fault = Fault.cacheGetFail then 0 else 1) := by
  cases fault with
  | cacheGetFail => simp [cacheReadF, MetricsState.endRoute]
  | ok =>
      cases hl : cacheLookup st.cache now (productKey sku) with
      | some data =>
          simp [cacheReadF, hl, MetricsState.incHit, MetricsState.endRoute]
          omega
      | none =>
          rcases hg : getEnrichedProduct db sku with ⟨opt, n⟩
          cases opt <;>
            simp [cacheReadF, hl, hg, MetricsState.incMiss, MetricsState.incDbReads,
              MetricsState.endRoute] <;> omega
  | dbFail =>
      cases hl : cacheLookup st.cache now (productKey sku) with
      | some data =>
          simp [cacheReadF, hl, MetricsState.incHit, MetricsState.endRoute]
          omega
      | none =>
          simp [cacheReadF, hl, MetricsState.incMiss, MetricsState.endRoute]
          omega
  | cacheSetFail =>
      cases hl : cacheLookup st.cache now (productKey sku) with
      | some data =>
          simp [cacheReadF, hl, MetricsState.incHit, MetricsState.endRoute]
          omega
      | none =>
          rcases hg : getEnrichedProduct db sku with ⟨opt, n⟩
          cases opt <;>
            simp [cacheReadF, hl, hg, MetricsState.incMiss, MetricsState.incDbReads,
              MetricsState.endRoute] <;> omega

/-- C4 (amended): every run of the read handler records exactly one
duration observation, under the status it answers with, and exactly one
hit-or-miss increment whenever the cache lookup itself does not throw;
when the cache lookup throws, the run records its single (status-500)
observation but no hit-or-miss increment. -/
theorem read_metrics_per_call (fault : Fault) (db : Database) (now : Nat) (sku : String)
    (st : ServerState) :
    (cacheReadF fault db now sku st).2.1.metrics.durationObs
      = st.metrics.durationObs
        ++ [("GET", "/cache/:sku", (cacheReadF fault db now sku st).1.status)]
    ∧ (cacheReadF fault db now sku st).2.1.metrics.cacheHits "/cache/:sku"
        + (cacheReadF fault db now sku st).2.1.metrics.cacheMisses "/cache/:sku"
      = st.metrics.cacheHits "/cache/:sku" + st.metrics.cacheMisses "/cache/:sku"
        + (if fault = Fault.cacheGetFail then 0 else 1) :=
  ⟨read_obs_once fault db now sku st, read_hitmiss_count fault db now sku st⟩

/-- Counterexample to C4 as stated: when the cache lookup throws, the
call ends in an error with its one (status-500) duration observation
but performs zero hit-or-miss increments. -/
theorem read_metrics_counterexample :
    (cacheReadF Fault.cacheGetFail wdb 0 "SKU-1" emptyState).2.1.metrics.cacheHits "/cache/:sku"
      + (cacheReadF Fault.cacheGetFail wdb 0 "SKU-1" emptyState).2.1.metrics.cacheMisses "/cache/:sku"
      = 0
    ∧ (cacheReadF Fault.cacheGetFail wdb 0 "SKU-1" emptyState).1.status = 500
    ∧ (cacheReadF Fault.cacheGetFail wdb 0 "SKU-1" emptyState).2.1.metrics.durationObs.length
      = 1 := by
  refine ⟨rfl, rfl, rfl⟩

/-- C9: no run of the `/cache/:sku` handler — hit, miss, not-found or
any faulted run — performs a sleep effect: the simulated-latency delays
described by the documentation do not exist in the code. -/
theorem read_performs_no_sleep (fault : Fault) (db : Database) (now : Nat)
    (sku : String) (st : ServerState) (ms : Nat) :
    Effect.sleep ms ∉ (cacheReadF fault db now sku st).2.2 := by
  cases fault with
  | cacheGetFail => simp [cacheReadF]
  | ok =>
      cases hl : cacheLookup st.cache now (productKey sku) with
      | some data => simp [cacheReadF, hl]
      | none =>
          rcases hg : getEnrichedProduct db sku with ⟨opt, n⟩
          cases opt <;> simp [cacheReadF, hl, hg, enrichQueries]
  | dbFail =>
      cases hl : cacheLookup st.cache now (productKey sku) with
      | some data => simp [cacheReadF, hl]
      | none => simp [cacheReadF, hl]
  | cacheSetFail =>
      cases hl : cacheLookup st.cache now (productKey sku) with
      | some data => simp [cacheReadF, hl]
      | none =>
          rcases hg : getEnrichedProduct db sku with ⟨opt, n⟩
          cases opt <;> simp [cacheReadF, hl, hg, enrichQueries]

/-- A miss-populate cycle followed by an in-window read: the miss
answers the enriched product with `cached: false` and the second read
answers the stored snapshot with `cached: true`. -/
theorem read_miss_then_hit (db : Database) (now now2 : Nat) (sku : String)
    (st : ServerState) (pr : Product)
    (hfind : findProduct db sku = some pr)
    (hcold : st.cache (productKey sku) = none)
    (hwin : now2 < now + CACHE_TTL) :
    (cacheReadF Fault.ok db now sku st).1
      = ⟨200, objSet (toJson (enrich db pr)) "cached" (Json.bool false)⟩
    ∧ (cacheReadF Fault.ok db now2 sku (cacheReadF Fault.ok db now sku st).2.1).1
      = ⟨200, objSet (toJson (enrich db pr)) "cached" (Json.bool true)⟩ := by
  have h1 := cacheRead_miss_found db now sku st pr hfind hcold
  have hentry : ((cacheReadF Fault.ok db now sku st).2.1).cache (productKey sku)
      = some (toJson (enrich db pr), now + CACHE_TTL) := by
    rw [h1]; simp
  have h2 := cacheRead_hit db now2 sku (cacheReadF Fault.ok db now sku st).2.1
    (toJson (enrich db pr)) (now + CACHE_TTL) hentry hwin
  exact ⟨by rw [h1], by rw [h2]⟩

/-- C1: after a miss-populate cycle for a key present in the backing
store, a second read within the TTL window is served from the cache —
the response carries `cached: true` — and its entity is the stored
snapshot of the same enriched product the miss returned; the
serialize-then-deserialize round trip preserves every field of that
snapshot. -/
theorem read_hit_after_populate (db : Database) (now now2 : Nat) (sku : String)
    (st : ServerState) (pr : Product)
    (hfind : findProduct db sku = some pr)
    (hcold : st.cache (productKey sku) = none)
    (hwin : now2 < now + CACHE_TTL) :
    (cacheReadF Fault.ok db now sku st).1
      = ⟨200, objSet (toJson (enrich db pr)) "cached" (Json.bool false)⟩
    ∧ (cacheReadF Fault.ok db now2 sku (cacheReadF Fault.ok db now sku st).2.1).1
      = ⟨200, objSet (toJson (enrich db pr)) "cached" (Json.bool true)⟩
    ∧ fromJson (toJson (enrich db pr)) = some (enrich db pr) := by
  obtain ⟨hmiss, hhit⟩ := read_miss_then_hit db now now2 sku st pr hfind hcold hwin
  exact ⟨hmiss, hhit, fromJson_toJson (enrich db pr)⟩

/-- Witness for C1: the scenario store, key `SKU-1`, cold cache, second
read five seconds after the first. -/
theorem read_hit_after_populate_witness :
    findProduct wdb "SKU-1" = some wpr
    ∧ emptyState.cache (productKey "SKU-1") = none
    ∧ 5 < 0 + CACHE_TTL
    ∧ ((cacheReadF Fault.ok wdb 0 "SKU-1" emptyState).1
        = ⟨200, objSet (toJson (enrich wdb wpr)) "cached" (Json.bool false)⟩
      ∧ (cacheReadF Fault.ok wdb 5 "SKU-1" (cacheReadF Fault.ok wdb 0 "SKU-1" emptyState).2.1).1
        = ⟨200, objSet (toJson (enrich wdb wpr)) "cached" (Json.bool true)⟩
      ∧ fromJson (toJson (enrich wdb wpr)) = some (enrich wdb wpr)) :=
  ⟨by decide, rfl, by decide,
   read_hit_after_populate wdb 0 5 "SKU-1" emptyState wpr (by decide) rfl (by decide)⟩

/-- C2: every returned entity carries
`finalPrice = round(price * (1 - discount/100))` and
`savings = price - finalPrice`; the cold read answers it with
`cached: false`, the immediate second read answers the identical
payload with `cached: true`, and the uncached baseline route answers
the same entity with `cached: false`. -/
theorem read_derived_fields (db : Database) (now now2 : Nat) (sku : String)
    (st : ServerState) (pr : Product)
    (hfind : findProduct db sku = some pr)
    (hcold : st.cache (productKey sku) = none)
    (hwin : now2 < now + CACHE_TTL)
    (hdisc : 0 ≤ pr.discount ∧ pr.discount ≤ 100) :
    (enrich db pr).finalPrice = jsRound ((pr.price : ℚ) * (1 - (pr.discount : ℚ) / 100))
    ∧ (enrich db pr).savings = (enrich db pr).price - (enrich db pr).finalPrice
    ∧ (cacheReadF Fault.ok db now sku st).1
      = ⟨200, objSet (toJson (enrich db pr)) "cached" (Json.bool false)⟩
    ∧ (cacheReadF Fault.ok db now2 sku (cacheReadF Fault.ok db now sku st).2.1).1
      = ⟨200, objSet (toJson (enrich db pr)) "cached" (Json.bool true)⟩
    ∧ (nocacheRead db sku st).1
      = ⟨200, objSet (toJson (enrich db pr)) "cached" (Json.bool false)⟩ := by
  obtain ⟨hmiss, hhit⟩ := read_miss_then_hit db now now2 sku st pr hfind hcold hwin
  refine ⟨rfl, rfl, hmiss, hhit, ?_⟩
  simp [nocacheRead, getEnrichedProduct, hfind]

/-- `jsRound` at a point where the shifted value is an integer. -/
theorem jsRound_near (q : ℚ) (n : Int) (h : q + 1/2 = (n : ℚ)) : jsRound q = n := by
  unfold jsRound
  rw [h, Rat.floor_def']
  simp

/-- Witness for C2: the scenario product `{sku: "SKU-1", price: 1005,
discount: 10}` yields `finalPrice 905`, `savings 100`. -/
theorem read_derived_fields_witness :
    findProduct wdb "SKU-1" = some wpr
    ∧ emptyState.cache (productKey "SKU-1") = none
    ∧ 1 < 0 + CACHE_TTL
    ∧ (0 ≤ wpr.discount ∧ wpr.discount ≤ 100)
    ∧ (enrich wdb wpr).finalPrice = 905
    ∧ (enrich wdb wpr).savings = 100
    ∧ ((enrich wdb wpr).finalPrice
        = jsRound ((wpr.price : ℚ) * (1 - (wpr.discount : ℚ) / 100))
      ∧ (enrich wdb wpr).savings = (enrich wdb wpr).price - (enrich wdb wpr).finalPrice
      ∧ (cacheReadF Fault.ok wdb 0 "SKU-1" emptyState).1
        = ⟨200, objSet (toJson (enrich wdb wpr)) "cached" (Json.bool false)⟩
      ∧ (cacheReadF Fault.ok wdb 1 "SKU-1" (cacheReadF Fault.ok wdb 0 "SKU-1" emptyState).2.1).1
        = ⟨200, objSet (toJson (enrich wdb wpr)) "cached" (Json.bool true)⟩
      ∧ (nocacheRead wdb "SKU-1" emptyState).1
        = ⟨200, objSet (toJson (enrich wdb wpr)) "cached" (Json.bool false)⟩) :=
  ⟨by decide, rfl, by decide, by decide,
   jsRound_near ((wpr.price : ℚ) * (1 - (wpr.discount : ℚ) / 100)) 905 (by norm_num [wpr]),
   by
     have hf : (enrich wdb wpr).finalPrice = 905 :=
       jsRound_near ((wpr.price : ℚ) * (1 - (wpr.discount : ℚ) / 100)) 905 (by norm_num [wpr])
     show wpr.price - (enrich wdb wpr).finalPrice = 100
     rw [hf]; norm_num [wpr],
   read_derived_fields wdb 0 1 "SKU-1" emptyState wpr (by decide) rfl (by decide) (by decide)⟩

/-- C6: the reset operation flushes the cache first and resets the
counters second; when the flush fails, the hit, miss and backing-read
counters keep their values, the cache is untouched, and the failure is
surfaced as a 500 response — while a successful flush empties the cache
and zeroes exactly those counters. -/
theorem reset_flush_failure_keeps_counters (st : ServerState) (msg : String) :
    ((resetHandler (Except.error msg) st).1.status = 500
     ∧ (resetHandler (Except.error msg) st).1.body = errBody msg
     ∧ (resetHandler (Except.error msg) st).2.metrics.cacheHits = st.metrics.cacheHits
     ∧ (resetHandler (Except.error msg) st).2.metrics.cacheMisses = st.metrics.cacheMisses
     ∧ (resetHandler (Except.error msg) st).2.metrics.dbReads = st.metrics.dbReads
     ∧ (resetHandler (Except.error msg) st).2.cache = st.cache)
    ∧ ((resetHandler (Except.ok ()) st).1.status = 200
     ∧ (resetHandler (Except.ok ()) st).2.cache = (fun _ => none)
     ∧ (resetHandler (Except.ok ()) st).2.metrics.cacheHits = (fun _ => 0)
     ∧ (resetHandler (Except.ok ()) st).2.metrics.cacheMisses = (fun _ => 0)
     ∧ (resetHandler (Except.ok ()) st).2.metrics.dbReads = (fun _ => 0)) :=
  ⟨⟨rfl, rfl, rfl, rfl, rfl, rfl⟩, rfl, rfl, rfl, rfl, rfl⟩

/-- C7: the counter-reset step zeroes exactly the hit, miss and
backing-read counters; the duration histogram and the request counter —
the only other metrics state — keep their values. -/
theorem resetCounters_scope (m : MetricsState) (route : String) :
    m.resetCounters.cacheHits route = 0
    ∧ m.resetCounters.cacheMisses route = 0
    ∧ m.resetCounters.dbReads route = 0
    ∧ m.resetCounters.httpRequests = m.httpRequests
    ∧ m.resetCounters.durationObs = m.durationObs :=
  ⟨rfl, rfl, rfl, rfl, rfl⟩

/-- Folding `+ f x` over a list starting from `a` is `a` plus the sum
of the mapped list. -/
theorem foldl_add_f {α : Type} (f : α → Int) :
    ∀ (l : List α) (a : Int), l.foldl (fun s x => s + f x) a = a + (l.map f).sum := by
  intro l
  induction l with
  | nil => intro a; simp
  | cons x xs ih => intro a; simp [ih]; ring

/-- C10: in every enriched product, each `warehouseStock` entry's
`available` is that inventory location's `quantity - reserved`, and
`totalInventory` is the sum of `quantity - reserved` over the product's
locations, i.e. exactly the sum of the `available` values. -/
theorem enrich_inventory_invariant (db : Database) (pr : Product) :
    (enrich db pr).warehouseStock
      = (db.inventory.filter (fun l => l.product_id = pr.id)).map
          (fun l => { warehouse := l.warehouse, available := l.quantity - l.reserved })
    ∧ (enrich db pr).totalInventory
      = ((enrich db pr).warehouseStock.map (fun w => w.available)).sum := by
  refine ⟨rfl, ?_⟩
  calc (enrich db pr).totalInventory
      = (db.inventory.filter (fun l => l.product_id = pr.id)).foldl
          (fun sum loc => sum + (loc.quantity - loc.reserved)) 0 := rfl
    _ = 0 + ((db.inventory.filter (fun l => l.product_id = pr.id)).map
          (fun loc : InventoryLocation => loc.quantity - loc.reserved)).sum :=
        foldl_add_f (fun loc : InventoryLocation => loc.quantity - loc.reserved) _ 0
    _ = ((enrich db pr).warehouseStock.map (fun w => w.available)).sum := by
        simp [enrich, List.map_map]
        rfl

/-! ## Warm-up lemmas for the load generator -/

/-- Appending to a fixed string on the left is injective. -/
theorem string_append_left_cancel (s a b : String) (h : s ++ a = s ++ b) : a = b := by
  have hd : (s ++ a).data = (s ++ b).data := by rw [h]
  rw [String.data_append, String.data_append] at hd
  exact String.ext (List.append_cancel_left hd)

/-- Distinct SKUs have distinct cache keys. -/
theorem productKey_ne (a b : String) (h : a ≠ b) : productKey a ≠ productKey b :=
  fun hk => h (string_append_left_cancel "product:" a b hk)

/-- A fault-free read touches no cache key other than its own. -/
theorem cacheRead_cache_frame (db : Database) (now : Nat) (sku : String)
    (st : ServerState) (k : String) (hk : k ≠ productKey sku) :
    (cacheReadF Fault.ok db now sku st).2.1.cache k = st.cache k := by
  cases hl : cacheLookup st.cache now (productKey sku) with
  | some data => simp [cacheReadF, hl]
  | none =>
      rcases hg : getEnrichedProduct db sku with ⟨opt, n⟩
      cases opt <;> simp [cacheReadF, hl, hg, hk]

/-- Running the generated requests over pairwise-distinct, existing,
previously-uncached keys (with no fetch faults) adds five backing-read
increments per key, populates the cache for every requested key, and
touches no other cache key. -/
theorem runRequests_warm (db : Database) (now : Nat) (faults : Nat → Bool) :
    ∀ (L : List (Nat × String)) (st : ServerState),
      (∀ p ∈ L, faults p.1 = false) →
      (∀ p ∈ L, (findProduct db p.2).isSome) →
      (∀ p ∈ L, st.cache (productKey p.2) = none) →
      (L.map Prod.snd).Pairwise (fun a b => a ≠ b) →
      ((runRequests db now faults L st).2.metrics.dbReads "/cache/:sku"
         = st.metrics.dbReads "/cache/:sku" + 5 * L.length)
      ∧ (∀ p ∈ L, ∃ v, (runRequests db now faults L st).2.cache (productKey p.2) = some v)
      ∧ (∀ k, (∀ p ∈ L, k ≠ productKey p.2) →
          (runRequests db now faults L st).2.cache k = st.cache k) := by
  intro L
  induction L with
  | nil =>
      intro st _ _ _ _
      exact ⟨by simp [runRequests], by simp, fun k _ => rfl⟩
  | cons hd tl ih =>
      intro st hfaults hfound hcold hdist
      obtain ⟨i, s⟩ := hd
      have hfi : faults i = false := hfaults (i, s) (by simp)
      have hfs : (findProduct db s).isSome := hfound (i, s) (by simp)
      obtain ⟨pr, hpr⟩ := Option.isSome_iff_exists.mp hfs
      have hcolds : st.cache (productKey s) = none := hcold (i, s) (by simp)
      have hstep := cacheRead_miss_found db now s st pr hpr hcolds
      have hsne : ∀ p ∈ tl, (p : Nat × String).2 ≠ s := by
        intro p hp
        have := (List.pairwise_cons.mp hdist).1 p.2 (List.mem_map_of_mem Prod.snd hp)
        exact fun he => this he.symm
      have hrun : runRequests db now faults ((i, s) :: tl) st
          = (some (cacheReadF Fault.ok db now s st).1
               :: (runRequests db now faults tl (cacheReadF Fault.ok db now s st).2.1).1,
             (runRequests db now faults tl (cacheReadF Fault.ok db now s st).2.1).2) := by
        simp [runRequests, hfi]
      set st1 := (cacheReadF Fault.ok db now s st).2.1 with hst1
      have hst1cache : st1.cache (productKey s) = some (toJson (enrich db pr), now + CACHE_TTL) := by
        rw [hst1, hstep]; simp
      have hst1frame : ∀ k, k ≠ productKey s → st1.cache k = st.cache k := by
        intro k hk
        rw [hst1]
        exact cacheRead_cache_frame db now s st k hk
      have hst1reads : st1.metrics.dbReads "/cache/:sku"
          = st.metrics.dbReads "/cache/:sku" + 5 := by
        rw [hst1, hstep]
        simp [MetricsState.incMiss, MetricsState.incDbReads, MetricsState.endRoute]
      have htl := ih st1
        (fun p hp => hfaults p (List.mem_cons_of_mem _ hp))
        (fun p hp => hfound p (List.mem_cons_of_mem _ hp))
        (fun p hp => by
          rw [hst1frame (productKey p.2) (productKey_ne p.2 s (hsne p hp))]
          exact hcold p (List.mem_cons_of_mem _ hp))
        (List.pairwise_cons.mp hdist).2
      obtain ⟨hreads, hpop, hframe⟩ := htl
      refine ⟨?_, ?_, ?_⟩
      · rw [hrun]
        simp only []
        rw [hreads, hst1reads]
        simp [List.length_cons]
        ring
      · intro p hp
        rcases List.mem_cons.mp hp with he | hp2
        · subst he
          refine ⟨(toJson (enrich db pr), now + CACHE_TTL), ?_⟩
          rw [hrun]
          simp only []
          rw [hframe (productKey s)
            (fun q hq => productKey_ne s q.2 (fun he2 => (hsne q hq) he2.symm))]
          exact hst1cache
        · obtain ⟨v, hv⟩ := hpop p hp2
          refine ⟨v, ?_⟩
          rw [hrun]
          exact hv
      · intro k hk
        rw [hrun]
        simp only []
        rw [hframe k (fun p hp => hk p (List.mem_cons_of_mem _ hp))]
        exact hst1frame k (hk (i, s) (List.mem_cons_self _ _))

/-- C5 (amended): warming the cache over `count` distinct
previously-uncached keys that exist in the backing store performs
exactly `5 * count` backing-read counter increments in the race-free
run — five per warmed key, one per enrichment query — and leaves the
cache populated for every warmed key. -/
theorem simulate_load_warm (db : Database) (now : Nat) (count : Nat) (st : ServerState)
    (hfound : ∀ s ∈ simulateLoadKeys count, (findProduct db s).isSome)
    (hcold : ∀ s ∈ simulateLoadKeys count, st.cache (productKey s) = none)
    (hdist : (simulateLoadKeys count).Pairwise (fun a b => a ≠ b)) :
    (simulateLoad db now (fun _ => false) count st).2.2.metrics.dbReads "/cache/:sku"
      = st.metrics.dbReads "/cache/:sku" + 5 * count
    ∧ ∀ s ∈ simulateLoadKeys count,
        ∃ v, (simulateLoad db now (fun _ => false) count st).2.2.cache (productKey s)
          = some v := by
  have hmap : ((List.range count).map (fun i => (i + 1, "SKU-" ++ toString (i + 1)))).map
      Prod.snd = simulateLoadKeys count := by
    simp [simulateLoadKeys, List.map_map]
  obtain ⟨hreads, hpop, -⟩ := runRequests_warm db now (fun _ => false)
    ((List.range count).map (fun i => (i + 1, "SKU-" ++ toString (i + 1)))) st
    (fun p _ => rfl)
    (fun p hp => hfound p.2 (by rw [← hmap]; exact List.mem_map_of_mem Prod.snd hp))
    (fun p hp => hcold p.2 (by rw [← hmap]; exact List.mem_map_of_mem Prod.snd hp))
    (by rw [hmap]; exact hdist)
  have hlen : ((List.range count).map (fun i => (i + 1, "SKU-" ++ toString (i + 1)))).length
      = count := by simp
  rw [hlen] at hreads
  refine ⟨hreads, ?_⟩
  intro s hs
  have hs2 : s ∈ ((List.range count).map
      (fun i => (i + 1, "SKU-" ++ toString (i + 1)))).map Prod.snd := by
    rw [hmap]; exact hs
  obtain ⟨p, hp, hps⟩ := List.mem_map.mp hs2
  obtain ⟨v, hv⟩ := hpop p hp
  exact ⟨v, by rw [← hps]; exact hv⟩

/-- Witness for C5 at a concrete two-key warm-up over the scenario
store. -/
theorem simulate_load_warm_witness :
    (∀ s ∈ simulateLoadKeys 2, (findProduct wdb s).isSome)
    ∧ (simulateLoadKeys 2).Pairwise (fun a b => a ≠ b)
    ∧ ((simulateLoad wdb 0 (fun _ => false) 2 emptyState).2.2.metrics.dbReads "/cache/:sku"
        = emptyState.metrics.dbReads "/cache/:sku" + 5 * 2
      ∧ ∀ s ∈ simulateLoadKeys 2,
          ∃ v, (simulateLoad wdb 0 (fun _ => false) 2 emptyState).2.2.cache (productKey s)
            = some v) :=
  ⟨by decide, by decide,
   simulate_load_warm wdb 0 2 emptyState (by decide) (fun s _ => rfl) (by decide)⟩

/-- Counterexample to C5 as stated: warming a single existing,
previously-uncached key performs five backing-read increments in the
race-free run, not one (nor at most two, the bound with one duplicated
concurrent miss). -/
theorem simulate_load_counterexample :
    (simulateLoad wdb 0 (fun _ => false) 1 emptyState).2.2.metrics.dbReads "/cache/:sku" = 5
    ∧ ¬ ((simulateLoad wdb 0 (fun _ => false) 1 emptyState).2.2.metrics.dbReads "/cache/:sku"
          ≤ 2) :=
  ⟨rfl, by decide⟩

/-- The fan-out produces one (possibly failed) result per generated
request. -/
theorem runRequests_length (db : Database) (now : Nat) (faults : Nat → Bool) :
    ∀ (L : List (Nat × String)) (st : ServerState),
      ((runRequests db now faults L st).1).length = L.length := by
  intro L
  induction L with
  | nil => intro st; rfl
  | cons hd tl ih =>
      intro st
      obtain ⟨i, s⟩ := hd
      cases h : faults i <;> simp [runRequests, h, ih]

/-- C8 (amended): for every `count`, the load generator issues exactly
`count` requests, against keys `SKU-1` through `SKU-count`, collects one
resolved result per issued request whatever subset of the fetches
fails — a failed request never aborts the others — and reports
success. -/
theorem simulate_load_fanout (db : Database) (now : Nat) (faults : Nat → Bool)
    (count : Nat) (st : ServerState) :
    simulateLoadKeys count = (List.range count).map (fun i => "SKU-" ++ toString (i + 1))
    ∧ (simulateLoadKeys count).length = count
    ∧ ((simulateLoad db now faults count st).2.1).length = count
    ∧ (simulateLoad db now faults count st).1.status = 200
    ∧ (simulateLoad db now faults count st).1.body = simulateLoadBody count := by
  refine ⟨rfl, by simp [simulateLoadKeys], ?_, rfl, rfl⟩
  show ((runRequests db now faults
      ((List.range count).map (fun i => (i + 1, "SKU-" ++ toString (i + 1)))) st).1).length
    = count
  rw [runRequests_length db now faults
      ((List.range count).map (fun i => (i + 1, "SKU-" ++ toString (i + 1)))) st]
  simp

/-- Counterexample to C8 as stated: the load generator's keys are
`SKU-i`, not `key-i`. -/
theorem simulate_load_keys_counterexample :
    simulateLoadKeys 1 = ["SKU-1"] ∧ simulateLoadKeys 1 ≠ ["key-1"] := by
  constructor <;> decide

end BlackFriday
